import Mathlib

/-!
Verification development for the "Hopeful News" frontend.

Each definition is a shallow embedding of a function of the repository:
the pull-to-refresh touch handlers and the feed/aux-data orchestration of
the Vue components, the summary sanitiser and share handler of the article
card, and the hope-level bucketing and filter-bar emission logic.
Coordinates, scroll offsets and scores carried as JavaScript numbers are
modelled as rationals; asynchronous fetch calls are modelled by returning
the list of arguments the handler passes to the fetch function.
-/

namespace HopefulNews

/-! ### Pull-to-refresh gesture handler (ArticleFeed.vue) -/

/-- The constant PULL_THRESHOLD of ArticleFeed.vue. -/
def PULL_THRESHOLD : ℚ := 80

/-- The constant MAX_PULL of ArticleFeed.vue. -/
def MAX_PULL : ℚ := 120

/-- The reactive state of the pull-to-refresh handler in ArticleFeed.vue:
refs pullDistance, isPulling, isRefreshing and startY. -/
structure GestureState where
  pullDistance : ℚ
  isPulling : Bool
  isRefreshing : Bool
  startY : ℚ
deriving DecidableEq, Repr

/-- Embedding of onTouchStart: given the current window.scrollY and the
touch clientY, either ignores the event (refresh in flight, or scrolled
down) or records the start point and enters the pulling state. -/
def onTouchStart (s : GestureState) (scrollY touchY : ℚ) : GestureState :=
  if s.isRefreshing = true ∨ 0 < scrollY then s
  else { s with startY := touchY, isPulling := true }

/-- Embedding of onTouchMove: ignores the event unless pulling and not
refreshing; damps a downward delta by 0.5 and caps it at MAX_PULL, and
resets the pull distance to 0 otherwise. The preventDefault DOM call is
not modelled. -/
def onTouchMove (s : GestureState) (scrollY touchY : ℚ) : GestureState :=
  if s.isPulling = false ∨ s.isRefreshing = true then s
  else
    let diff := touchY - s.startY
    if 0 < diff ∧ scrollY = 0 then
      { s with pullDistance := min (diff * (1 / 2)) MAX_PULL }
    else
      { s with pullDistance := 0 }

/-- The intermediate state onTouchEnd holds while the refresh fetch is
awaited: not pulling any more, refreshing, and the pull distance pinned
to the fixed indicator height 60. -/
def refreshingPinned (s : GestureState) : GestureState :=
  { s with isPulling := false, isRefreshing := true, pullDistance := 60 }

/-- Embedding of onTouchEnd. The second component is the list of reset
flags of the fetchArticles calls the handler makes, in order; the
window.scrollTo call is a DOM effect and is not modelled. -/
def onTouchEnd (s : GestureState) : GestureState × List Bool :=
  if s.isPulling = false then (s, [])
  else if PULL_THRESHOLD ≤ s.pullDistance then
    let mid := refreshingPinned s
    (({ mid with isRefreshing := false, pullDistance := 0 }), [true])
  else
    ({ s with isPulling := false, pullDistance := 0 }, [])

/-- The range invariant on the gesture state: the pull distance stays
between 0 and MAX_PULL. -/
def GInv (s : GestureState) : Prop :=
  0 ≤ s.pullDistance ∧ s.pullDistance ≤ MAX_PULL

instance (s : GestureState) : Decidable (GInv s) := by
  unfold GInv; infer_instance

/-! ### Feed controller (useArticles composable) and load-more control -/

/-- Modelled from the spec: the useArticles composable that owns the feed
state is not under src/ (only its callers are), so the feed state is
taken from the spec data model, FeedState with a page cursor starting at
1, a hasMore flag, a loading flag, the article id list, the backend total
and the error banner text. -/
structure FeedState where
  articles : List Nat
  page : Nat
  hasMore : Bool
  loading : Bool
  total : Nat
  error : Option String
deriving DecidableEq, Repr

/-- Modelled from the spec: loadMore of the useArticles composable is not
under src/; per the spec it is a no-op when hasMore is false or loading
is true, and otherwise increments the page and issues one append-mode
fetch. The second component is the list of reset flags of the
fetchArticles calls made. -/
def loadMore (s : FeedState) : FeedState × List Bool :=
  if s.hasMore = true ∧ s.loading = false then
    ({ s with page := s.page + 1 }, [false])
  else
    (s, [])

/-- Render condition of the Load more button in ArticleFeed.vue: the
surrounding block requires a non-empty article list and the button itself
requires hasMore and not loading. -/
def showLoadMore (articlesLen : Nat) (hasMore loading : Bool) : Bool :=
  decide (0 < articlesLen) && (hasMore && !loading)

/-! ### Auxiliary data fetches (App.vue fetchFilters, AppHeader fetchStats)
and the mount-time feed fetch of ArticleFeed.vue -/

/-- A category or region entry as served by the backend: a name and an
article count. -/
structure CatCount where
  name : String
  count : Nat
deriving DecidableEq, Repr

/-- The articles part of the stats payload; the fetched_today field may be
absent. -/
structure StatsArticles where
  fetchedToday : Option Nat
deriving DecidableEq, Repr

/-- The stats payload of getStats; the articles part may be absent. -/
structure Stats where
  articles : Option StatsArticles
deriving DecidableEq, Repr

/-- Embedding of fetchFilters in App.vue: Promise.all over getCategories
and getRegions either delivers both lists or rejects as a whole; a
rejection is caught silently and leaves the two lists as they were. -/
def fetchFilters (result : Except Unit (List CatCount × List CatCount))
    (categories regions : List CatCount) : List CatCount × List CatCount :=
  match result with
  | .ok (cats, regs) => (cats, regs)
  | .error _ => (categories, regions)

/-- Embedding of fetchStats in AppHeader.vue: on success the today counter
becomes the optional fetched_today field of the optional articles part;
a rejection is caught silently and leaves the counter as it was. -/
def fetchStats (result : Except Unit Stats) (todayCount : Option Nat) :
    Option Nat :=
  match result with
  | .ok stats => stats.articles.bind (fun a => a.fetchedToday)
  | .error _ => todayCount

/-- Embedding of the onMounted hook of ArticleFeed.vue, restricted to its
fetch behaviour: a reset-mode fetchArticles call is issued exactly when
the article list is empty, independently of any auxiliary data. -/
def articleFeedMountFetches (articlesLen : Nat) : List Bool :=
  if articlesLen = 0 then [true] else []

/-- The application start-up as wired in App.vue, AppHeader.vue and
ArticleFeed.vue: the filter lists start empty and the today counter
absent, each is updated by its own fetch handler, and the feed issues
its mount-time fetch independently. -/
def appStartup (filtersResult : Except Unit (List CatCount × List CatCount))
    (statsResult : Except Unit Stats) (articlesLen : Nat) :
    (List CatCount × List CatCount) × Option Nat × List Bool :=
  (fetchFilters filtersResult [] [], fetchStats statsResult none,
    articleFeedMountFetches articlesLen)

/-! ### Filter bar emissions (FilterBar.vue) -/

/-- The discriminant of a filter-change intent. -/
inductive FilterType
  | category
  | region
  | minScore
deriving DecidableEq, Repr

/-- The value carried by a filter-change intent: category and region
values are strings, minScore values are numbers. -/
inductive FilterValue
  | str (s : String)
  | num (n : ℚ)
deriving DecidableEq, Repr

/-- A filter-change intent as emitted by FilterBar.vue: a type and a
value, null meaning clear the dimension. -/
structure FilterIntent where
  type : FilterType
  value : Option FilterValue
deriving DecidableEq, Repr

/-- Embedding of selectCategory in FilterBar.vue. -/
def selectCategory (value : Option String) : FilterIntent :=
  ⟨.category, value.map .str⟩

/-- Embedding of selectRegion in FilterBar.vue. -/
def selectRegion (value : Option String) : FilterIntent :=
  ⟨.region, value.map .str⟩

/-- Embedding of selectMinScore in FilterBar.vue. -/
def selectMinScore (value : Option ℚ) : FilterIntent :=
  ⟨.minScore, value.map .num⟩

/-- Click handler of a category chip: it emits the chip name whatever the
currently active category is. -/
def categoryButtonClick (catName : String) (_activeCategory : Option String) :
    FilterIntent :=
  selectCategory (some catName)

/-- Click handler of the All chip of the category row. -/
def categoryAllButtonClick (_activeCategory : Option String) : FilterIntent :=
  selectCategory none

/-- Click handler of a region chip: it emits the chip name whatever the
currently active region is. -/
def regionButtonClick (regionName : String) (_activeRegion : Option String) :
    FilterIntent :=
  selectRegion (some regionName)

/-- Click handler of the All chip of the region row. -/
def regionAllButtonClick (_activeRegion : Option String) : FilterIntent :=
  selectRegion none

/-- Click handler of a rating-level chip: it emits the level minimum
whatever the currently active minScore is. -/
def minScoreButtonClick (levelMin : ℚ) (_activeMinScore : Option ℚ) :
    FilterIntent :=
  selectMinScore (some levelMin)

/-- Click handler of the All chip of the rating-level row. -/
def minScoreAllButtonClick (_activeMinScore : Option ℚ) : FilterIntent :=
  selectMinScore none

/-! ### Hope-level bucketing (HopeLevel.vue) -/

/-- One entry of the levels table of HopeLevel.vue; the colour classes and
icon are presentation data and are not modelled. -/
structure HopeLevelDef where
  min : ℚ
  label : String
  tier : Nat
deriving DecidableEq, Repr

/-- The levels table of HopeLevel.vue, in source order. -/
def levels : List HopeLevelDef :=
  [⟨90, "Radiant", 5⟩, ⟨80, "Inspiring", 4⟩, ⟨70, "Uplifting", 3⟩,
    ⟨60, "Hopeful", 2⟩, ⟨50, "Encouraging", 1⟩]

/-- Embedding of the level computed property of HopeLevel.vue: null for a
null score, otherwise the first table entry whose minimum the score
reaches, falling back to the last entry. -/
def level (score : Option ℚ) : Option HopeLevelDef :=
  match score with
  | none => none
  | some s => some ((levels.find? (fun l => l.min ≤ s)).getD
      (levels.getLastD ⟨0, "", 0⟩))

/-- The badge of HopeLevel.vue is rendered exactly when the level is not
null. -/
def showHopeBadge (score : Option ℚ) : Bool :=
  (level score).isSome

/-! ### Summary sanitising (ArticleCard.vue cleanSummary) -/

/-- Helper on the way to the tag-stripping regex replace: drops characters
up to and including the first closing angle bracket, returning none when
there is none; the length certificate drives the termination of
stripTags. -/
def dropThroughGt : (l : List Char) → Option { l' : List Char // l'.length < l.length }
  | [] => none
  | c :: rest =>
    if c = '>' then some ⟨rest, by simp⟩
    else
      match dropThroughGt rest with
      | some ⟨l', h⟩ => some ⟨l', Nat.lt_succ_of_lt h⟩
      | none => none

/-- Embedding of the global regex replace of cleanSummary: scanning left
to right, an opening angle bracket that has a closing one somewhere after
it deletes everything up to and including that closing bracket; an
opening bracket with no closing one matches nothing and the rest of the
string is kept as is. -/
def stripTags : List Char → List Char
  | [] => []
  | c :: rest =>
    if c = '<' then
      match dropThroughGt rest with
      | some ⟨rest', _⟩ => stripTags rest'
      | none => c :: rest
    else
      c :: stripTags rest
termination_by l => l.length
decreasing_by
  · exact Nat.lt_succ_of_lt (by assumption)
  · simp

/-- Embedding of the cleanSummary computed property of ArticleCard.vue: a
missing summary gives the empty string, otherwise the tags are stripped
and the first 150 characters kept (the final JavaScript or-empty leaves
every string value unchanged). -/
def cleanSummary (summary : Option String) : String :=
  match summary with
  | none => ""
  | some s => String.mk ((stripTags s.data).take 150)

/-- Decidable check for a tag-shaped substring: true exactly when some
opening angle bracket is followed, anywhere later, by a closing one, so
that the list has a substring of the shape open-bracket, anything,
close-bracket. -/
def hasOpenThenClose : List Char → Bool
  | [] => false
  | c :: rest =>
    if c = '<' then rest.contains '>'
    else hasOpenThenClose rest

/-! ### Share action (ArticleCard.vue handleShare, copyToClipboard) -/

/-- Outcome of the navigator.share promise: it resolves, or rejects with
an error carrying a name. -/
inductive ShareOutcome
  | success
  | failure (errName : String)
deriving DecidableEq, Repr

/-- Embedding of copyToClipboard: the first component is the text passed
to the clipboard write, the second the toast message shown; the toast
depends on whether the clipboard write succeeds. -/
def copyToClipboard (clipboardOk : Bool) (sourceUrl : String) :
    Option String × Option String :=
  if clipboardOk then (some sourceUrl, some "Link copied!")
  else (some sourceUrl, some "Failed to copy")

/-- Embedding of handleShare: with the Web Share API available a resolved
share does nothing more, a rejection named AbortError is swallowed, and
any other rejection falls back to the clipboard copy; without the API the
clipboard copy runs directly. -/
def handleShare (shareAvailable : Bool) (shareResult : ShareOutcome)
    (clipboardOk : Bool) (sourceUrl : String) :
    Option String × Option String :=
  if shareAvailable then
    match shareResult with
    | .success => (none, none)
    | .failure errName =>
      if errName = "AbortError" then (none, none)
      else copyToClipboard clipboardOk sourceUrl
  else copyToClipboard clipboardOk sourceUrl

/-! ### Helper lemmas -/

theorem dropThroughGt_eq_none {l : List Char} (h : dropThroughGt l = none) :
    l.contains '>' = false := by
  induction l with
  | nil => rfl
  | cons c rest ih =>
    rw [dropThroughGt] at h
    by_cases hc : c = '>'
    · simp [hc] at h
    · rw [if_neg hc] at h
      cases hd : dropThroughGt rest with
      | some p => rw [hd] at h; cases p; simp at h
      | none =>
        have hrest : '>' ∉ rest := by simpa using ih hd
        simp only [List.contains_cons, Bool.or_eq_false_iff]
        exact ⟨by simpa using fun h2 => hc h2.symm, by simpa using hrest⟩

theorem hasOpenThenClose_stripTags (l : List Char) :
    hasOpenThenClose (stripTags l) = false := by
  induction l using stripTags.induct with
  | case1 => simp [stripTags, hasOpenThenClose]
  | case2 rest l' hlen heq ih =>
    rw [stripTags]
    simp only [if_pos rfl, heq]
    exact ih
  | case3 rest heq =>
    rw [stripTags]
    simp only [if_pos rfl, heq]
    simpa [hasOpenThenClose] using dropThroughGt_eq_none heq
  | case4 c rest hc ih =>
    rw [stripTags, if_neg hc]
    simpa [hasOpenThenClose, hc] using ih

theorem hasOpenThenClose_take {l : List Char} (h : hasOpenThenClose l = false)
    (n : Nat) : hasOpenThenClose (l.take n) = false := by
  induction l generalizing n with
  | nil => simp [hasOpenThenClose]
  | cons c rest ih =>
    cases n with
    | zero => rfl
    | succ m =>
      rw [List.take_succ_cons]
      rw [hasOpenThenClose] at h ⊢
      by_cases hc : c = '<'
      · rw [if_pos hc] at h ⊢
        have hmem : '>' ∉ rest := by simpa using h
        simpa using fun hm => hmem (List.mem_of_mem_take hm)
      · rw [if_neg hc] at h ⊢
        exact ih h m

theorem hasOpenThenClose_iff (l : List Char) :
    hasOpenThenClose l = true ↔
      ∃ a b c, l = a ++ '<' :: (b ++ '>' :: c) := by
  constructor
  · intro h
    induction l with
    | nil => simp [hasOpenThenClose] at h
    | cons c rest ih =>
      rw [hasOpenThenClose] at h
      by_cases hc : c = '<'
      · rw [if_pos hc] at h
        have : '>' ∈ rest := by simpa using h
        obtain ⟨b, cs, rfl⟩ := List.append_of_mem this
        exact ⟨[], b, cs, by simp [hc]⟩
      · rw [if_neg hc] at h
        obtain ⟨a, b, cs, rfl⟩ := ih h
        exact ⟨c :: a, b, cs, by simp⟩
  · rintro ⟨a, b, c, rfl⟩
    induction a with
    | nil => simp [hasOpenThenClose]
    | cons x a ih =>
      rw [List.cons_append, hasOpenThenClose]
      by_cases hx : x = '<'
      · rw [if_pos hx]
        simp
      · rw [if_neg hx]
        exact ih

/-! ### Claim theorems -/

/-- C1: for every completed touch gesture handled by the pull-to-refresh
handler, a pull distance of at least the threshold 80 at touch-end
triggers exactly one reset-mode feed fetch, and a pull distance below 80
triggers none. -/
theorem onTouchEnd_fetch_count (s : GestureState) (h : s.isPulling = true) :
    (80 ≤ s.pullDistance → (onTouchEnd s).2 = [true]) ∧
    (s.pullDistance < 80 → (onTouchEnd s).2 = []) := by
  constructor
  · intro hp
    have hth : PULL_THRESHOLD ≤ s.pullDistance := by rw [PULL_THRESHOLD]; exact hp
    simp [onTouchEnd, h, hth]
  · intro hp
    have hth : ¬PULL_THRESHOLD ≤ s.pullDistance := by
      rw [PULL_THRESHOLD]; exact not_le.mpr hp
    simp [onTouchEnd, h, hth]

/-- Witness for C1: a released pull of distance 100 issues exactly the one
reset fetch, a released pull of distance 10 issues none. -/
theorem onTouchEnd_fetch_count_witness :
    (onTouchEnd ⟨100, true, false, 0⟩).2 = [true] ∧
    (onTouchEnd ⟨10, true, false, 0⟩).2 = [] :=
  ⟨(onTouchEnd_fetch_count ⟨100, true, false, 0⟩ rfl).1 (by norm_num),
    (onTouchEnd_fetch_count ⟨10, true, false, 0⟩ rfl).2 (by norm_num)⟩

/-- C2 counterexample: with no refresh in flight and a non-zero (negative,
elastic-overscroll) scroll offset of -1, onTouchStart does not leave the
gesture state unchanged: it starts a new pull, because the guard in the
source tests only for a positive scroll offset. -/
theorem onTouchStart_nonzero_scroll_counterexample :
    (-1 : ℚ) ≠ 0 ∧
      onTouchStart ⟨0, false, false, 0⟩ (-1) 5 ≠ ⟨0, false, false, 0⟩ :=
  ⟨by decide, by decide⟩

/-- C2 amended: a touch-start while a refresh is in flight or while the
vertical scroll offset is positive leaves the gesture state unchanged, so
no new pull gesture begins in either condition. -/
theorem onTouchStart_guard (s : GestureState) (scrollY touchY : ℚ)
    (h : s.isRefreshing = true ∨ 0 < scrollY) :
    onTouchStart s scrollY touchY = s := by
  rw [onTouchStart, if_pos h]

/-- Witness for the amended C2: a touch-start during a refresh leaves the
state untouched. -/
theorem onTouchStart_guard_witness :
    onTouchStart ⟨60, false, true, 0⟩ 0 5 = ⟨60, false, true, 0⟩ :=
  onTouchStart_guard ⟨60, false, true, 0⟩ 0 5 (Or.inl rfl)

/-- C3: while a pull is active, a touch-move with a downward delta and a
zero scroll offset sets the pull distance to the delta damped by one half
and capped at 120, while an upward move or a non-zero scroll offset
resets the pull distance to 0; in every case the gesture stays in the
pulling state. -/
theorem onTouchMove_update (s : GestureState) (scrollY touchY : ℚ)
    (hp : s.isPulling = true) (hr : s.isRefreshing = false) :
    (0 < touchY - s.startY → scrollY = 0 →
        onTouchMove s scrollY touchY =
          { s with pullDistance := min ((touchY - s.startY) * (1 / 2)) 120 }) ∧
    ((touchY - s.startY < 0 ∨ scrollY ≠ 0) →
        onTouchMove s scrollY touchY = { s with pullDistance := 0 }) ∧
    (onTouchMove s scrollY touchY).isPulling = true := by
  have hguard : ¬(s.isPulling = false ∨ s.isRefreshing = true) := by
    simp [hp, hr]
  refine ⟨?_, ?_, ?_⟩
  · intro hd h0
    rw [onTouchMove, if_neg hguard, if_pos ⟨hd, h0⟩]
    rfl
  · intro hcase
    have hcond : ¬(0 < touchY - s.startY ∧ scrollY = 0) := by
      rcases hcase with hup | hsc
      · exact fun hx => absurd hx.1 (not_lt.mpr hup.le)
      · exact fun hx => hsc hx.2
    rw [onTouchMove, if_neg hguard, if_neg hcond]
  · rw [onTouchMove, if_neg hguard]
    dsimp only
    split <;> exact hp

/-- Witness for C3: a 40-pixel downward move at scroll offset 0 sets the
damped capped distance, a move at scroll offset 1 resets it to 0. -/
theorem onTouchMove_update_witness :
    onTouchMove ⟨0, true, false, 10⟩ 0 50 =
      { pullDistance := min ((50 - 10) * (1 / 2)) 120, isPulling := true,
        isRefreshing := false, startY := 10 } ∧
    onTouchMove ⟨20, true, false, 10⟩ 1 50 =
      { pullDistance := 0, isPulling := true, isRefreshing := false,
        startY := 10 } :=
  ⟨(onTouchMove_update ⟨0, true, false, 10⟩ 0 50 rfl rfl).1 (by norm_num) rfl,
    (onTouchMove_update ⟨20, true, false, 10⟩ 1 50 rfl rfl).2.1
      (Or.inr (by norm_num))⟩

/-- C4: the gesture invariant holds at all times: a pull distance in the
range 0 to 120 is preserved by touch-start, touch-move and touch-end,
also through the pinned indicator state held during a refresh, and after
a completed gesture cycle the touch-end handler leaves the pull distance
at 0. -/
theorem gesture_invariant (s : GestureState) (scrollY touchY : ℚ)
    (h : GInv s) :
    GInv (onTouchStart s scrollY touchY) ∧
    GInv (onTouchMove s scrollY touchY) ∧
    GInv (refreshingPinned s) ∧
    GInv (onTouchEnd s).1 ∧
    (s.isPulling = true → (onTouchEnd s).1.pullDistance = 0) := by
  obtain ⟨h0, h1⟩ := h
  refine ⟨?_, ?_, ?_, ?_, ?_⟩
  · rw [onTouchStart]
    split
    · exact ⟨h0, h1⟩
    · exact ⟨h0, h1⟩
  · rw [onTouchMove]
    split
    · exact ⟨h0, h1⟩
    · dsimp only
      split
      · rename_i hcond
        refine ⟨le_min ?_ ?_, min_le_right _ _⟩
        · exact mul_nonneg (le_of_lt hcond.1) (by norm_num)
        · rw [MAX_PULL]; norm_num
      · exact ⟨le_refl 0, by rw [MAX_PULL]; norm_num⟩
  · exact ⟨by norm_num [refreshingPinned], by norm_num [refreshingPinned, MAX_PULL]⟩
  · rw [onTouchEnd]
    split
    · exact ⟨h0, h1⟩
    · dsimp only
      split
      · exact ⟨le_refl 0, by norm_num [MAX_PULL]⟩
      · exact ⟨le_refl 0, by norm_num [MAX_PULL]⟩
  · intro hp
    rw [onTouchEnd, if_neg (by simp [hp])]
    dsimp only
    split <;> rfl

/-- Witness for C4: the invariant at the idle state with pull distance 0
is carried through each handler, and the touch-end of an active pull
leaves the pull distance at 0. -/
theorem gesture_invariant_witness :
    GInv (onTouchStart ⟨0, true, false, 0⟩ 0 5) ∧
    GInv (onTouchMove ⟨0, true, false, 0⟩ 0 5) ∧
    GInv (refreshingPinned ⟨0, true, false, 0⟩) ∧
    GInv (onTouchEnd ⟨0, true, false, 0⟩).1 ∧
    (onTouchEnd ⟨0, true, false, 0⟩).1.pullDistance = 0 :=
  ⟨(gesture_invariant ⟨0, true, false, 0⟩ 0 5 (by constructor <;> norm_num [MAX_PULL])).1,
    (gesture_invariant ⟨0, true, false, 0⟩ 0 5 (by constructor <;> norm_num [MAX_PULL])).2.1,
    (gesture_invariant ⟨0, true, false, 0⟩ 0 5 (by constructor <;> norm_num [MAX_PULL])).2.2.1,
    (gesture_invariant ⟨0, true, false, 0⟩ 0 5 (by constructor <;> norm_num [MAX_PULL])).2.2.2.1,
    (gesture_invariant ⟨0, true, false, 0⟩ 0 5 (by constructor <;> norm_num [MAX_PULL])).2.2.2.2 rfl⟩

/-- C5: loadMore is a no-op when hasMore is false or loading is true (no
state change, no fetch issued), and the Load more control is rendered
only when hasMore is true and loading is false, so loadMore cannot be
invoked with its preconditions violated. -/
theorem loadMore_noop_guard :
    (∀ s : FeedState, s.hasMore = false ∨ s.loading = true →
        loadMore s = (s, [])) ∧
    (∀ (n : Nat) (hm ld : Bool), showLoadMore n hm ld = true →
        hm = true ∧ ld = false) := by
  constructor
  · intro s h
    have hcond : ¬(s.hasMore = true ∧ s.loading = false) := by
      rcases h with h | h <;> simp [h]
    rw [loadMore, if_neg hcond]
  · intro n hm ld h
    simp only [showLoadMore, Bool.and_eq_true, decide_eq_true_eq,
      Bool.not_eq_true'] at h
    exact ⟨h.2.1, h.2.2⟩

/-- Witness for C5: loadMore with hasMore false leaves a concrete feed
state unchanged and issues no fetch, and a rendered Load more control
implies hasMore and not loading. -/
theorem loadMore_noop_guard_witness :
    loadMore ⟨[1], 1, false, false, 1, none⟩ =
      (⟨[1], 1, false, false, 1, none⟩, []) ∧
    (true = true ∧ false = false) :=
  ⟨loadMore_noop_guard.1 ⟨[1], 1, false, false, 1, none⟩ (Or.inl rfl),
    loadMore_noop_guard.2 1 true false rfl⟩

/-- C6: a failure of an auxiliary-data fetch is recovered silently: a
rejected filters fetch leaves the category and region lists as they were
(empty at start-up), a rejected stats fetch leaves the today counter as
it was (absent at start-up), and the mount-time feed fetch is issued
independently of the auxiliary results. -/
theorem aux_failure_silent :
    appStartup (.error ()) (.error ()) 0 = (([], []), none, [true]) ∧
    (∀ cats regs : List CatCount,
        fetchFilters (.error ()) cats regs = (cats, regs)) ∧
    (∀ tc : Option Nat, fetchStats (.error ()) tc = tc) ∧
    (∀ (fr : Except Unit (List CatCount × List CatCount))
        (sr : Except Unit Stats) (n : Nat),
        (appStartup fr sr n).2.2 = articleFeedMountFetches n) :=
  ⟨rfl, fun _ _ => rfl, fun _ => rfl, fun _ _ _ => rfl⟩

/-- C7: every filter chip emits its own value whatever the active value of
its dimension is, so re-clicking the active choice emits the same value
again rather than toggling it off, and only the All chips emit the null
value that clears a dimension. -/
theorem filterBar_emissions :
    (∀ (name : String) (active : Option String),
        categoryButtonClick name active = ⟨.category, some (.str name)⟩) ∧
    (∀ active : Option String,
        categoryAllButtonClick active = ⟨.category, none⟩) ∧
    (∀ (name : String) (active : Option String),
        regionButtonClick name active = ⟨.region, some (.str name)⟩) ∧
    (∀ active : Option String,
        regionAllButtonClick active = ⟨.region, none⟩) ∧
    (∀ (m : ℚ) (active : Option ℚ),
        minScoreButtonClick m active = ⟨.minScore, some (.num m)⟩) ∧
    (∀ active : Option ℚ,
        minScoreAllButtonClick active = ⟨.minScore, none⟩) :=
  ⟨fun _ _ => rfl, fun _ => rfl, fun _ _ => rfl, fun _ => rfl,
    fun _ _ => rfl, fun _ => rfl⟩

/-- C8: a null score renders no badge, and a non-null score is assigned
exactly one of the five display tiers by threshold: Radiant from 90,
Inspiring from 80, Uplifting from 70, Hopeful from 60, and Encouraging
otherwise, scores below 50 included. -/
theorem hopeLevel_tiers :
    level none = none ∧ showHopeBadge none = false ∧
    ∀ s : ℚ,
      (90 ≤ s → level (some s) = some ⟨90, "Radiant", 5⟩) ∧
      (80 ≤ s → s < 90 → level (some s) = some ⟨80, "Inspiring", 4⟩) ∧
      (70 ≤ s → s < 80 → level (some s) = some ⟨70, "Uplifting", 3⟩) ∧
      (60 ≤ s → s < 70 → level (some s) = some ⟨60, "Hopeful", 2⟩) ∧
      (s < 60 → level (some s) = some ⟨50, "Encouraging", 1⟩) ∧
      showHopeBadge (some s) = true := by
  refine ⟨rfl, rfl, fun s => ⟨?_, ?_, ?_, ?_, ?_, rfl⟩⟩
  · intro h90
    simp [level, levels, List.find?, decide_eq_true h90]
  · intro h80 h90
    simp [level, levels, List.find?, decide_eq_true h80,
      decide_eq_false (not_le.mpr h90)]
  · intro h70 h80
    have h90 : ¬(90 : ℚ) ≤ s := not_le.mpr (by linarith)
    simp [level, levels, List.find?, decide_eq_true h70,
      decide_eq_false (not_le.mpr h80), decide_eq_false h90]
  · intro h60 h70
    have h90 : ¬(90 : ℚ) ≤ s := not_le.mpr (by linarith)
    have h80 : ¬(80 : ℚ) ≤ s := not_le.mpr (by linarith)
    simp [level, levels, List.find?, decide_eq_true h60,
      decide_eq_false (not_le.mpr h70), decide_eq_false h90,
      decide_eq_false h80]
  · intro h60
    have h90 : ¬(90 : ℚ) ≤ s := not_le.mpr (by linarith)
    have h80 : ¬(80 : ℚ) ≤ s := not_le.mpr (by linarith)
    have h70 : ¬(70 : ℚ) ≤ s := not_le.mpr (by linarith)
    rcases le_or_lt 50 s with h50 | h50
    · simp [level, levels, List.find?, decide_eq_true h50,
        decide_eq_false (not_le.mpr h60), decide_eq_false h90,
        decide_eq_false h80, decide_eq_false h70]
    · simp [level, levels, List.find?, decide_eq_false (not_le.mpr h50),
        decide_eq_false (not_le.mpr h60), decide_eq_false h90,
        decide_eq_false h80, decide_eq_false h70]

/-- Witness for C8: one concrete score in each tier lands on its tier. -/
theorem hopeLevel_tiers_witness :
    level (some 95) = some ⟨90, "Radiant", 5⟩ ∧
    level (some 85) = some ⟨80, "Inspiring", 4⟩ ∧
    level (some 75) = some ⟨70, "Uplifting", 3⟩ ∧
    level (some 65) = some ⟨60, "Hopeful", 2⟩ ∧
    level (some 40) = some ⟨50, "Encouraging", 1⟩ :=
  ⟨(hopeLevel_tiers.2.2 95).1 (by norm_num),
    ((hopeLevel_tiers.2.2 85).2.1 (by norm_num) (by norm_num)),
    ((hopeLevel_tiers.2.2 75).2.2.1 (by norm_num) (by norm_num)),
    ((hopeLevel_tiers.2.2 65).2.2.2.1 (by norm_num) (by norm_num)),
    ((hopeLevel_tiers.2.2 40).2.2.2.2.1 (by norm_num))⟩

/-- C9: the displayed summary never contains a substring of the shape
open angle bracket, anything, close angle bracket, is at most 150
characters long, and a missing summary yields the empty string. -/
theorem cleanSummary_sanitised (s : Option String) :
    hasOpenThenClose (cleanSummary s).data = false ∧
    (cleanSummary s).length ≤ 150 ∧
    cleanSummary none = "" := by
  refine ⟨?_, ?_, rfl⟩
  · cases s with
    | none => rfl
    | some str =>
      exact hasOpenThenClose_take (hasOpenThenClose_stripTags str.data) 150
  · cases s with
    | none => simp [cleanSummary]
    | some str =>
      show ((stripTags str.data).take 150).length ≤ 150
      rw [List.length_take]
      exact min_le_left _ _

/-- C10: the share action degrades to the clipboard copy when the Web
Share API is unavailable or when sharing fails with any error other than
AbortError; the copy writes the source url and shows the Link copied
toast on success and the Failed to copy toast on clipboard failure; a
share cancelled with AbortError produces no copy and no toast. -/
theorem handleShare_fallback (url : String) (res : ShareOutcome)
    (ok : Bool) :
    handleShare false res ok url = copyToClipboard ok url ∧
    (∀ name : String, name ≠ "AbortError" →
        handleShare true (.failure name) ok url = copyToClipboard ok url) ∧
    handleShare true (.failure "AbortError") ok url = (none, none) ∧
    copyToClipboard true url = (some url, some "Link copied!") ∧
    copyToClipboard false url = (some url, some "Failed to copy") := by
  refine ⟨rfl, ?_, rfl, rfl, rfl⟩
  intro name hname
  rw [handleShare, if_pos rfl]
  simp only [if_neg hname]

/-- Witness for C10: a failed share named TypeError with a working
clipboard copies the link. -/
theorem handleShare_fallback_witness :
    handleShare true (ShareOutcome.failure "TypeError") true "u" =
      copyToClipboard true "u" :=
  (handleShare_fallback "u" ShareOutcome.success true).2.1 "TypeError"
    (by decide)

end HopefulNews
